import Mathlib

/-!
Verification of the Akebi96 primary audio HAL output path (`audio_hw.c`).

The development shallowly embeds the output-stream state machine of the
driver: `do_out_standby`, `out_standby`, `start_output_stream`,
`out_set_parameters` (routing key), `out_write` (standby transition,
threshold update, channel down-mix, rate adaptation, fill-controller
throttle loop, threshold ramp, hardware write, fallback pacing sleep) and
`out_get_presentation_position`.

Modelling conventions:
- C machine integers are `Nat`/`Int`; the one place where unsigned 64-bit
  wraparound is semantically relevant (the presentation-position
  subtraction) is modelled with explicit `% 2^64`.
- The board constants `OUT_PERIOD_SIZE`, `OUT_SHORT_PERIOD_COUNT`,
  `OUT_LONG_PERIOD_COUNT`, `OUT_SAMPLING_RATE`, `NUM_OF_CHANNELS` come
  from a board header that is not part of this repository; they are kept
  abstract as the fields of `HwConsts`.  `pcm_config_out` is the value the
  global of the same name receives in `adev_open`.
- External tinyalsa calls are modelled by their documented contracts:
  `pcm_open` never returns NULL (it returns a handle whose readiness
  depends on the config being non-NULL and on the hardware, the latter an
  environment input); `pcm_get_buffer_size` returns
  `period_size * period_count` of the open config; `pcm_get_htimestamp`
  and `pcm_write` results are environment inputs.
- The stream field `pcm_config` can only ever hold NULL or the address of
  the global `pcm_config_out`, so it is embedded as the boolean
  `pcm_config_set`; a read through a NULL `pcm_config` (undefined in C,
  unreachable in the driver) is modelled by the all-zero `nullCfg`, and
  every theorem whose conclusion depends on those values assumes
  `pcm_config_set = true`.
- The build without `ALWAYS_ALSA_OPEN` is modelled (the default
  configuration: standby closes and clears the PCM handle).
- A C array read `in_buffer[i]` is modelled by `lidx`, which returns 0
  out of bounds; all reads performed by the code on well-formed inputs
  are in bounds.
-/

/-- AUDIO_DEVICE_OUT_SPEAKER bit from the Android audio headers. -/
def AUDIO_DEVICE_OUT_SPEAKER : Nat := 2

/-- AUDIO_DEVICE_OUT_ALL_SCO mask from the Android audio headers. -/
def AUDIO_DEVICE_OUT_ALL_SCO : Nat := 112

/-- errno value EPIPE. -/
def EPIPE : Int := 32

/-- errno value ENOMEM. -/
def ENOMEM : Int := 12

/-- minimum sleep time in out_write when the write threshold is not reached. -/
def MIN_WRITE_SLEEP_US : Nat := 1000

/-- Board-level compile-time constants of the HAL (from the board header,
not part of this repository; kept abstract). -/
structure HwConsts where
  periodSize : Nat
  shortPeriodCount : Nat
  longPeriodCount : Nat
  samplingRate : Nat
  numChannels : Nat
deriving DecidableEq, Repr

/-- MAX_WRITE_SLEEP_US = ((OUT_PERIOD_SIZE * OUT_LONG_PERIOD_COUNT) /
(NUM_OF_CHANNELS * 4) * 1000000) / OUT_SAMPLING_RATE, after macro
expansion of OUT_MAX_PREOD_SAMPLE. -/
def MAX_WRITE_SLEEP_US (c : HwConsts) : Nat :=
  c.periodSize * c.longPeriodCount / (c.numChannels * 4) * 1000000 / c.samplingRate

/-- struct pcm_config: the fields the driver reads. -/
structure PcmConfig where
  channels : Nat
  rate : Nat
  period_size : Nat
  period_count : Nat
  start_threshold : Nat
deriving DecidableEq, Repr

/-- Value assigned to the global `pcm_config_out` in `adev_open`. -/
def pcm_config_out (c : HwConsts) : PcmConfig :=
  { channels := c.numChannels,
    rate := c.samplingRate,
    period_size := c.periodSize,
    period_count := c.longPeriodCount,
    start_threshold := c.periodSize * c.shortPeriodCount }

/-- Stand-in for the values read through a NULL `pcm_config` pointer.
Such a read is undefined behaviour in C and unreachable in the driver;
theorems that depend on config values assume `pcm_config_set = true`. -/
def nullCfg : PcmConfig :=
  { channels := 0, rate := 0, period_size := 0, period_count := 0, start_threshold := 0 }

/-- A tinyalsa PCM handle: whether `pcm_is_ready` holds, and whether
`pcm_close` has already been called on it (then the C pointer dangles). -/
structure PcmHandle where
  ready : Bool
  closed : Bool
deriving DecidableEq, Repr

/-- tinyalsa `pcm_open`: never returns NULL; the result is ready iff the
config pointer is non-NULL and the hardware could be claimed (`ok`). -/
def pcm_open (cfgSet : Bool) (ok : Bool) : PcmHandle :=
  { ready := cfgSet && ok, closed := false }

/-- OUT_BUFFER_TYPE_UNKNOWN / SHORT / LONG. -/
inductive BufferType where
  | unknown
  | short
  | long
deriving DecidableEq, Repr

/-- struct stream_out: the fields the verified operations touch.
`resampler` and `buffer` record presence of the resampler handle and the
scratch buffer; `pcm_config_set` records whether `pcm_config` points to
the global `pcm_config_out` (the only non-NULL value it can hold). -/
structure StreamOut where
  pcm : Option PcmHandle
  pcm_config_set : Bool
  standby : Bool
  written : Nat
  resampler : Bool
  buffer : Bool
  buffer_frames : Nat
  write_threshold : Int
  cur_write_threshold : Int
  buffer_type : BufferType
deriving DecidableEq, Repr

/-- struct audio_device: the fields the verified operations touch.
`active_out` records whether `adev->active_out` points to the (single)
modelled stream. -/
structure AudioDevice where
  out_device : Nat
  in_device : Nat
  orientation : Nat
  screen_off : Bool
  active_out : Bool
deriving DecidableEq, Repr

/-- Combined device-and-stream state. -/
structure AState where
  dev : AudioDevice
  out : StreamOut
deriving DecidableEq, Repr

/-- Dereference of `out->pcm_config` (NULL reads modelled by `nullCfg`). -/
def strDevCfg (c : HwConsts) (o : StreamOut) : PcmConfig :=
  if o.pcm_config_set then pcm_config_out c else nullCfg

/-- Whether the stored PCM handle exists and is ready. -/
def pcmReadyb (o : StreamOut) : Bool :=
  match o.pcm with
  | some hd => hd.ready
  | none => false

/-- C array read `l[i]` of an `int32_t` buffer (0 out of bounds; all
reads the driver performs on well-formed inputs are in bounds). -/
def lidx : List Int → Nat → Int
  | [], _ => 0
  | a :: _, 0 => a
  | _ :: as, j + 1 => lidx as j

/-- Interleaved stereo buffer [L0, R0, L1, R1, ...]. -/
def interleave : List Int → List Int → List Int
  | a :: as, b :: bs => a :: b :: interleave as bs
  | _, _ => []

/-- Resource releases performed by `do_out_standby`. -/
inductive ResEvent where
  | pcmClose
  | resamplerRelease
  | bufferFree
deriving DecidableEq, Repr

/-- do_out_standby (audio_hw.c lines 141-161, build without
ALWAYS_ALSA_OPEN): if not already in standby, close the PCM handle (and
clear it), clear the device's active stream, release the resampler and
scratch buffer if present, and set the standby flag.  The second
component lists the resource releases performed. -/
def do_out_standby (s : AState) : AState × List ResEvent :=
  if s.out.standby = false then
    ({ dev := { s.dev with active_out := false },
       out := { s.out with pcm := none, resampler := false, buffer := false, standby := true } },
     [ResEvent.pcmClose]
       ++ (if s.out.resampler then [ResEvent.resamplerRelease] else [])
       ++ (if s.out.buffer then [ResEvent.bufferFree] else []))
  else (s, [])

/-- out_standby (lines 251-262): locks, delegates to `do_out_standby`,
returns 0. -/
def out_standby (s : AState) : AState × List ResEvent × Int :=
  ((do_out_standby s).1, (do_out_standby s).2, 0)

/-- Lines 177-182 of start_output_stream: select the speaker config if
the speaker bit is set (also resetting the buffer type to Unknown). -/
def sos_sel (dev_out : Nat) (o : StreamOut) : StreamOut :=
  if dev_out &&& AUDIO_DEVICE_OUT_SPEAKER ≠ 0 then
    { o with pcm_config_set := true, buffer_type := BufferType.unknown }
  else o

/-- Lines 184-186 of start_output_stream: open the PCM if the handle
field is NULL. -/
def sos_open (ok : Bool) (o : StreamOut) : StreamOut :=
  if o.pcm = none then { o with pcm := some (pcm_open o.pcm_config_set ok) } else o

/-- Lines 196-211 of start_output_stream: create a resampler and scratch
buffer iff the stream rate differs from the device rate. -/
def sos_mkrs (c : HwConsts) (o : StreamOut) : StreamOut :=
  if (pcm_config_out c).rate ≠ (strDevCfg c o).rate then
    { o with
      resampler := true, buffer := true,
      buffer_frames := (pcm_config_out c).period_size * (strDevCfg c o).rate /
        (pcm_config_out c).rate + 1 }
  else o

/-- start_output_stream (lines 164-216): select the speaker config, open
the PCM if the handle field is NULL, fail with -ENOMEM if the handle is
not ready (note: the C code closes the handle but leaves the field
pointing at it), else create the resampler if needed and mark the stream
active.  `openOk` is whether the hardware could be claimed by
`pcm_open`. -/
def start_output_stream (c : HwConsts) (openOk : Bool) (s : AState) : AState × Int :=
  match (sos_open openOk (sos_sel s.dev.out_device s.out)).pcm with
  | some hd =>
      if hd.ready = false then
        ({ s with out := { sos_open openOk (sos_sel s.dev.out_device s.out) with
                           pcm := some { hd with closed := true } } }, -ENOMEM)
      else
        ({ dev := { s.dev with active_out := true },
           out := sos_mkrs c (sos_open openOk (sos_sel s.dev.out_device s.out)) }, 0)
  | none =>
      ({ dev := { s.dev with active_out := true },
         out := sos_mkrs c (sos_open openOk (sos_sel s.dev.out_device s.out)) }, 0)

/-- out_get_sample_rate (lines 220-223): returns the global config rate. -/
def out_get_sample_rate (c : HwConsts) : Nat := (pcm_config_out c).rate

/-- out_set_parameters (lines 269-302), routing key only: if a routing
value is present, differs from the current output device and is non-zero,
force the stream into standby, then store the new route (and re-derive
mixer paths, which touches no modelled state).  Returns the parser
result. -/
def out_set_parameters (routing : Option Nat) (s : AState) : AState × Int :=
  match routing with
  | some val =>
      if s.dev.out_device ≠ val ∧ val ≠ 0 then
        (( { dev := { (do_out_standby s).1.dev with out_device := val },
             out := (do_out_standby s).1.out } : AState), 0)
      else (s, 0)
  | none => (s, -1)

/-- 2^64, the modulus of `uint64_t` arithmetic. -/
def U64 : Nat := 18446744073709551616

/-- 2^63, the first value that is negative as an `int64_t`. -/
def I63 : Nat := 9223372036854775808

/-- 2^32, the modulus of `unsigned int` arithmetic. -/
def U32 : Nat := 4294967296

/-- Reinterpretation of a `uint64_t` value as `int64_t`. -/
def i64OfU64 (u : Nat) : Int :=
  if u % U64 < I63 then ((u % U64 : Nat) : Int) else ((u % U64 : Nat) : Int) - (U64 : Int)

/-- out_get_presentation_position (lines 504-527).  `tele` is the result
of `pcm_get_htimestamp` (queued/available frame count and timestamp).
`frames0`/`ts0` are the previous contents of the output parameters; the
frame output is written only on success, the timestamp whenever the
telemetry read succeeds.  Returns (frames, timestamp, result). -/
def out_get_presentation_position (c : HwConsts) (tele : Option (Nat × Nat))
    (o : StreamOut) (frames0 ts0 : Nat) : Nat × Nat × Int :=
  match tele with
  | none => (frames0, ts0, -1)
  | some (avail, ts) =>
      let kbs := (strDevCfg c o).period_size * (strDevCfg c o).period_count
      let sf := i64OfU64 (o.written % U64 + (U64 - kbs % U64) + avail % U32)
      if 0 ≤ sf then (sf.toNat, ts, 0) else (frames0, ts, -1)

/-- The channel-reduction loop of out_write (lines 386-388):
`for (i = 1; i < n; i++) in_buffer[i] = in_buffer[i * 2];`. -/
def downmix_go (buf : List Int) (n i : Nat) : List Int :=
  if h : i < n then downmix_go (buf.set i (lidx buf (2 * i))) n (i + 1) else buf
termination_by n - i
decreasing_by omega

/-- The whole channel-reduction pass, starting at index 1. -/
def downmixRun (buf : List Int) (n : Nat) : List Int := downmix_go buf n 1

/-- audio_stream_out_frame_size for this stream: stereo (2 channels, from
out_get_channels) times 4 bytes (AUDIO_FORMAT_PCM_32_BIT). -/
def audio_stream_out_frame_sz : Nat := 2 * 4

/-- Duration of the fallback pacing sleep at the exit of out_write
(line 475): `bytes * 1000000 / frame_size / rate`. -/
def paceTime (c : HwConsts) (bytes : Nat) : Nat :=
  bytes * 1000000 / audio_stream_out_frame_sz / out_get_sample_rate c

/-- The throttle loop of out_write (lines 411-434).  `tele` gives the
successive `pcm_get_htimestamp` results (available frames); a `none`
models a failed telemetry read (break).  `cur` is `cur_write_threshold`
(not modified by the loop).  Returns the final `kernel_frames` and the
accumulated sleep time.  `fuel` bounds the recursion; the caller passes
`MAX_WRITE_SLEEP_US / MIN_WRITE_SLEEP_US + 2`, which the sleep ceiling
makes sufficient (each iteration that continues adds at least
MIN_WRITE_SLEEP_US and requires the total to be at most the ceiling). -/
def throttle_loop (dcfg : PcmConfig) (maxSleep : Nat) (cur : Int)
    (tele : Nat → Option Nat) : Nat → Nat → Nat → Int → Int × Nat
  | 0, _, total, kf => (kf, total)
  | fuel + 1, i, total, kf =>
      match tele i with
      | none => (kf, total)
      | some avail =>
          let kf2 : Int := ((dcfg.period_size * dcfg.period_count : Nat) : Int) - (avail : Int)
          if cur < kf2 then
            let sleepUs := (kf2 - cur).toNat * 1000000 / (dcfg.channels * 4) / dcfg.rate
            if sleepUs < MIN_WRITE_SLEEP_US then (kf2, total)
            else if total + sleepUs ≤ maxSleep then
              throttle_loop dcfg maxSleep cur tele fuel (i + 1) (total + sleepUs) kf2
            else (kf2, total + sleepUs)
          else (kf2, total)

/-- The buffer-type / write-threshold update of out_write (lines
364-379): when not routed to SCO and the (always Short) per-call buffer
type differs from the stored one, recompute `write_threshold`; when the
stored type was Unknown (just left standby), snap `cur_write_threshold`
to it. -/
def write_phase_thresh (c : HwConsts) (scoOn : Bool) (o : StreamOut) : StreamOut :=
  if scoOn = false ∧ BufferType.short ≠ o.buffer_type then
    let wt : Int :=
      (((strDevCfg c o).period_size *
        (if BufferType.short = BufferType.long then c.longPeriodCount
         else c.shortPeriodCount) : Nat) : Int)
    { o with
      write_threshold := wt,
      cur_write_threshold := if o.buffer_type = BufferType.unknown then wt else o.cur_write_threshold,
      buffer_type := BufferType.short }
  else o

/-- The threshold adjustment of out_write (lines 443-458): ratchet
`cur_write_threshold` toward `write_threshold` by at most a quarter
period, clamped at the target; if already on target and the kernel fill
level is more than a short-buffer's worth below the target, snap to just
above the fill level plus a quarter-period margin.  The C division
`kernel_frames / period_size` converts `kernel_frames` to `size_t`;
it is modelled by `Int.toNat` (they agree for the non-negative fill
levels the loop produces). -/
def threshold_ramp (c : HwConsts) (dcfg : PcmConfig) (wt cur kf : Int) : Int :=
  if wt < cur then
    if cur - ((dcfg.period_size / 4 : Nat) : Int) < wt then wt
    else cur - ((dcfg.period_size / 4 : Nat) : Int)
  else if cur < wt then
    if wt < cur + ((dcfg.period_size / 4 : Nat) : Int) then wt
    else cur + ((dcfg.period_size / 4 : Nat) : Int)
  else if kf < wt ∧ ((dcfg.period_size * c.shortPeriodCount : Nat) : Int) < wt - kf then
    (((kf.toNat / dcfg.period_size + 1) * dcfg.period_size + dcfg.period_size / 4 : Nat) : Int)
  else cur

/-- Environment inputs of one out_write call: hardware availability for
`pcm_open`, the telemetry read results, the `pcm_write` result, and the
output of the (externally implemented) resampler. -/
structure WriteEnv where
  openOk : Bool
  tele : Nat → Option Nat
  pcmWriteRes : Int
  resampleBuf : List Int
  resampleFrames : Nat

/-- Observable outcome of one out_write call. -/
structure WriteResult where
  st : AState
  ret : Int
  paceSleep : Option Nat
  sleepTotal : Nat
  hwWrites : Nat
  hwBuf : List Int
  hwBytes : Nat
  outFrames : Nat
  kernelFrames : Int

/-- The standby-exit phase of out_write (lines 352-359): if in standby,
run `start_output_stream`; on success clear the standby flag. -/
def write_start (c : HwConsts) (env : WriteEnv) (s : AState) : AState × Int :=
  if s.out.standby then
    if (start_output_stream c env.openOk s).2 ≠ 0 then start_output_stream c env.openOk s
    else ({ (start_output_stream c env.openOk s).1 with
            out := { (start_output_stream c env.openOk s).1.out with standby := false } }, 0)
  else (s, 0)

/-- The body of out_write after a successful standby exit (lines
360-479): threshold update, channel down-mix, rate adaptation, throttle
loop and threshold ramp (skipped when routed to SCO), hardware write,
written-counter update, and the fallback pacing sleep on non-underrun
failure.  An underrun (-EPIPE) returns immediately without the pacing
sleep. -/
def scoOnOf (s1 : AState) : Bool :=
  s1.dev.out_device &&& AUDIO_DEVICE_OUT_ALL_SCO != 0

/-- The stream state after the buffer-type / threshold update phase. -/
def wc_o1 (c : HwConsts) (s1 : AState) : StreamOut :=
  write_phase_thresh c (scoOnOf s1) s1.out

/-- The device config as the write body reads it (through pcm_config). -/
def wc_cfg (c : HwConsts) (s1 : AState) : PcmConfig :=
  strDevCfg c (wc_o1 c s1)

/-- The channel-reduction phase (lines 381-392): the buffer passed on,
and the (possibly halved) frame size. -/
def wc_dm (c : HwConsts) (s1 : AState) (buf : List Int) (bytes : Nat) : List Int × Nat :=
  if (wc_cfg c s1).channels < 2 then
    (downmixRun buf (bytes / audio_stream_out_frame_sz), audio_stream_out_frame_sz / 2)
  else (buf, audio_stream_out_frame_sz)

/-- The rate-adaptation phase (lines 394-403): the buffer passed to the
hardware write and the output frame count. -/
def wc_rs (c : HwConsts) (env : WriteEnv) (s1 : AState) (buf : List Int)
    (bytes : Nat) : List Int × Nat :=
  if out_get_sample_rate c ≠ (wc_cfg c s1).rate then (env.resampleBuf, env.resampleFrames)
  else ((wc_dm c s1 buf bytes).1, bytes / audio_stream_out_frame_sz)

/-- The throttle loop as run by the write body (skipped when routed to
SCO; `kernel_frames` then keeps its initialiser 0). -/
def wc_kfT (c : HwConsts) (env : WriteEnv) (s1 : AState) : Int × Nat :=
  if scoOnOf s1 then (0, 0)
  else throttle_loop (wc_cfg c s1) (MAX_WRITE_SLEEP_US c) (wc_o1 c s1).cur_write_threshold
    env.tele (MAX_WRITE_SLEEP_US c / MIN_WRITE_SLEEP_US + 2) 0 0 0

/-- The stream state after the threshold ramp (lines 436-458; skipped
when routed to SCO). -/
def wc_post (c : HwConsts) (env : WriteEnv) (s1 : AState) : StreamOut :=
  if scoOnOf s1 then wc_o1 c s1
  else { wc_o1 c s1 with
         cur_write_threshold := threshold_ramp c (wc_cfg c s1) (wc_o1 c s1).write_threshold
           (wc_o1 c s1).cur_write_threshold (wc_kfT c env s1).1 }

def write_core (c : HwConsts) (env : WriteEnv) (s1 : AState) (buf : List Int)
    (bytes : Nat) : WriteResult :=
  if env.pcmWriteRes = -EPIPE then
    { st := { dev := s1.dev, out := wc_post c env s1 }, ret := env.pcmWriteRes,
      paceSleep := none, sleepTotal := (wc_kfT c env s1).2, hwWrites := 1,
      hwBuf := (wc_rs c env s1 buf bytes).1,
      hwBytes := (wc_rs c env s1 buf bytes).2 * (wc_dm c s1 buf bytes).2,
      outFrames := (wc_rs c env s1 buf bytes).2, kernelFrames := (wc_kfT c env s1).1 }
  else
    { st := { dev := s1.dev,
              out := if env.pcmWriteRes = 0 then
                  { wc_post c env s1 with
                    written := (wc_post c env s1).written + (wc_rs c env s1 buf bytes).2 }
                else wc_post c env s1 },
      ret := (bytes : Int),
      paceSleep := if env.pcmWriteRes = 0 then none else some (paceTime c bytes),
      sleepTotal := (wc_kfT c env s1).2, hwWrites := 1,
      hwBuf := (wc_rs c env s1 buf bytes).1,
      hwBytes := (wc_rs c env s1 buf bytes).2 * (wc_dm c s1 buf bytes).2,
      outFrames := (wc_rs c env s1 buf bytes).2, kernelFrames := (wc_kfT c env s1).1 }

/-- out_write (lines 330-480): leave standby if needed (on failure, go
straight to the exit path: pacing sleep and `return bytes`), then run the
write body. -/
def out_write (c : HwConsts) (env : WriteEnv) (s : AState) (buf : List Int)
    (bytes : Nat) : WriteResult :=
  if (write_start c env s).2 ≠ 0 then
    { st := (write_start c env s).1, ret := (bytes : Int),
      paceSleep := some (paceTime c bytes), sleepTotal := 0, hwWrites := 0,
      hwBuf := [], hwBytes := 0, outFrames := 0, kernelFrames := 0 }
  else write_core c env (write_start c env s).1 buf bytes

/-! ### List access lemmas for the down-mix loop -/

theorem lidx_ge : ∀ (l : List Int) (j : Nat), l.length ≤ j → lidx l j = 0 := by
  intro l
  induction l with
  | nil => intro j _; rfl
  | cons a as ih =>
      intro j hj
      cases j with
      | zero => simp at hj
      | succ j => exact ih j (by simpa using hj)

theorem lidx_set_ne : ∀ (l : List Int) (i j : Nat) (a : Int), i ≠ j →
    lidx (l.set i a) j = lidx l j := by
  intro l
  induction l with
  | nil => intro i j a _; cases i <;> rfl
  | cons b bs ih =>
      intro i j a hij
      cases i with
      | zero =>
          cases j with
          | zero => exact absurd rfl hij
          | succ j => rfl
      | succ i =>
          cases j with
          | zero => rfl
          | succ j => simpa [List.set, lidx] using ih i j a (by omega)

theorem lidx_set_self : ∀ (l : List Int) (i : Nat) (a : Int),
    lidx (l.set i a) i = if i < l.length then a else lidx l i := by
  intro l
  induction l with
  | nil => intro i a; cases i <;> rfl
  | cons b bs ih =>
      intro i a
      cases i with
      | zero => simp [List.set, lidx]
      | succ i =>
          have := ih i a
          simp only [List.set, lidx, List.length_cons]
          rw [this]
          by_cases h : i < bs.length
          · simp [h, Nat.succ_lt_succ h]
          · simp [h, fun hh => h (Nat.lt_of_succ_lt_succ hh)]

theorem length_downmix_go : ∀ (k n i : Nat) (buf : List Int), n - i ≤ k →
    (downmix_go buf n i).length = buf.length := by
  intro k
  induction k with
  | zero =>
      intro n i buf h
      unfold downmix_go
      rw [dif_neg (by omega)]
  | succ k ih =>
      intro n i buf h
      unfold downmix_go
      by_cases hin : i < n
      · rw [dif_pos hin, ih n (i + 1) _ (by omega), List.length_set]
      · rw [dif_neg hin]

theorem downmix_go_lt : ∀ (k n i j : Nat) (buf : List Int), n - i ≤ k → j < i →
    lidx (downmix_go buf n i) j = lidx buf j := by
  intro k
  induction k with
  | zero =>
      intro n i j buf h _
      unfold downmix_go
      rw [dif_neg (by omega)]
  | succ k ih =>
      intro n i j buf h hj
      unfold downmix_go
      by_cases hin : i < n
      · rw [dif_pos hin, ih n (i + 1) j _ (by omega) (by omega),
          lidx_set_ne _ _ _ _ (by omega)]
      · rw [dif_neg hin]

theorem downmix_go_ge : ∀ (k n i j : Nat) (buf : List Int), n - i ≤ k → i ≤ j → j < n →
    lidx (downmix_go buf n i) j = lidx buf (2 * j) := by
  intro k
  induction k with
  | zero => intro n i j buf h h1 h2; omega
  | succ k ih =>
      intro n i j buf h h1 h2
      have hin : i < n := by omega
      unfold downmix_go
      rw [dif_pos hin]
      by_cases hji : j = i
      · subst hji
        rw [downmix_go_lt k n (j + 1) j _ (by omega) (by omega), lidx_set_self]
        by_cases hlen : j < buf.length
        · simp [hlen]
        · rw [if_neg hlen, lidx_ge buf j (by omega), lidx_ge buf (2 * j) (by omega)]
      · rw [ih n (i + 1) j _ (by omega) (by omega) h2, lidx_set_ne _ _ _ _ (by omega)]

theorem downmixRun_lidx (buf : List Int) (n j : Nat) (hj : j < n) :
    lidx (downmixRun buf n) j = lidx buf (2 * j) := by
  unfold downmixRun
  rcases Nat.eq_zero_or_pos j with hz | hp
  · subst hz
    rw [downmix_go_lt n n 1 0 buf (by omega) (by omega)]
  · exact downmix_go_ge n n 1 j buf (by omega) (by omega) hj

theorem interleave_length : ∀ (L R : List Int), R.length = L.length →
    (interleave L R).length = 2 * L.length := by
  intro L
  induction L with
  | nil =>
      intro R h
      have : R = [] := List.eq_nil_of_length_eq_zero (by simpa using h)
      subst this; rfl
  | cons a as ih =>
      intro R h
      cases R with
      | nil => simp at h
      | cons b bs =>
          simp only [interleave, List.length_cons]
          rw [ih bs (by simpa using h)]
          omega

theorem lidx_interleave_even : ∀ (L R : List Int) (j : Nat), R.length = L.length →
    j < L.length → lidx (interleave L R) (2 * j) = lidx L j := by
  intro L
  induction L with
  | nil => intro R j _ hj; simp at hj
  | cons a as ih =>
      intro R j h hj
      cases R with
      | nil => simp at h
      | cons b bs =>
          cases j with
          | zero => rfl
          | succ j =>
              have h2 : 2 * (j + 1) = 2 * j + 1 + 1 := by omega
              rw [h2]
              simpa [interleave, lidx] using
                ih bs j (by simpa using h) (by simpa using Nat.lt_of_succ_lt_succ hj)

theorem lidx_take : ∀ (l : List Int) (n j : Nat), j < n → lidx (l.take n) j = lidx l j := by
  intro l
  induction l with
  | nil => intro n j _; simp [lidx]
  | cons a as ih =>
      intro n j hj
      cases n with
      | zero => omega
      | succ n =>
          cases j with
          | zero => rfl
          | succ j => simpa [List.take, lidx] using ih n j (by omega)

theorem list_eq_of_lidx : ∀ (A B : List Int), A.length = B.length →
    (∀ j, j < A.length → lidx A j = lidx B j) → A = B := by
  intro A
  induction A with
  | nil =>
      intro B h _
      exact (List.eq_nil_of_length_eq_zero h.symm).symm
  | cons a as ih =>
      intro B h hp
      cases B with
      | nil => simp at h
      | cons b bs =>
          have h0 : a = b := hp 0 (by simp)
          have ht : as = bs := by
            refine ih bs (by simpa using h) ?_
            intro j hj
            simpa [lidx] using hp (j + 1) (by simpa using Nat.succ_lt_succ hj)
          rw [h0, ht]

theorem downmixRun_take (L R : List Int) (h : R.length = L.length) :
    (downmixRun (interleave L R) L.length).take L.length = L := by
  have hlen : (downmixRun (interleave L R) L.length).length = 2 * L.length := by
    unfold downmixRun
    rw [length_downmix_go L.length L.length 1 _ (by omega), interleave_length L R h]
  refine list_eq_of_lidx _ _ ?_ ?_
  · rw [List.length_take, hlen]; omega
  · intro j hj
    have hj2 : j < L.length := by
      rw [List.length_take, hlen] at hj; omega
    rw [lidx_take _ _ _ hj2, downmixRun_lidx _ _ _ hj2, lidx_interleave_even L R j h hj2]

/-! ### Field-preservation lemmas for the phases of the write path -/

theorem sos_sel_pcm (d : Nat) (o : StreamOut) : (sos_sel d o).pcm = o.pcm := by
  unfold sos_sel; split <;> rfl

theorem sos_sel_standby (d : Nat) (o : StreamOut) : (sos_sel d o).standby = o.standby := by
  unfold sos_sel; split <;> rfl

theorem sos_sel_written (d : Nat) (o : StreamOut) : (sos_sel d o).written = o.written := by
  unfold sos_sel; split <;> rfl

theorem sos_sel_cur (d : Nat) (o : StreamOut) :
    (sos_sel d o).cur_write_threshold = o.cur_write_threshold := by
  unfold sos_sel; split <;> rfl

theorem sos_sel_wt (d : Nat) (o : StreamOut) :
    (sos_sel d o).write_threshold = o.write_threshold := by
  unfold sos_sel; split <;> rfl

theorem sos_sel_resampler (d : Nat) (o : StreamOut) : (sos_sel d o).resampler = o.resampler := by
  unfold sos_sel; split <;> rfl

theorem sos_sel_buffer (d : Nat) (o : StreamOut) : (sos_sel d o).buffer = o.buffer := by
  unfold sos_sel; split <;> rfl

theorem sos_sel_cfgset (d : Nat) (o : StreamOut) (h : o.pcm_config_set = true) :
    (sos_sel d o).pcm_config_set = true := by
  unfold sos_sel; split <;> simp [h]

theorem sos_open_cfgset (ok : Bool) (o : StreamOut) :
    (sos_open ok o).pcm_config_set = o.pcm_config_set := by
  unfold sos_open; split <;> rfl

theorem sos_open_standby (ok : Bool) (o : StreamOut) : (sos_open ok o).standby = o.standby := by
  unfold sos_open; split <;> rfl

theorem sos_open_written (ok : Bool) (o : StreamOut) : (sos_open ok o).written = o.written := by
  unfold sos_open; split <;> rfl

theorem sos_open_cur (ok : Bool) (o : StreamOut) :
    (sos_open ok o).cur_write_threshold = o.cur_write_threshold := by
  unfold sos_open; split <;> rfl

theorem sos_open_wt (ok : Bool) (o : StreamOut) :
    (sos_open ok o).write_threshold = o.write_threshold := by
  unfold sos_open; split <;> rfl

theorem sos_open_resampler (ok : Bool) (o : StreamOut) : (sos_open ok o).resampler = o.resampler := by
  unfold sos_open; split <;> rfl

theorem sos_open_buffer (ok : Bool) (o : StreamOut) : (sos_open ok o).buffer = o.buffer := by
  unfold sos_open; split <;> rfl

theorem sos_open_buffer_type (ok : Bool) (o : StreamOut) :
    (sos_open ok o).buffer_type = o.buffer_type := by
  unfold sos_open; split <;> rfl

theorem sos_mkrs_pcm (c : HwConsts) (o : StreamOut) : (sos_mkrs c o).pcm = o.pcm := by
  unfold sos_mkrs; split <;> rfl

theorem sos_mkrs_cfgset (c : HwConsts) (o : StreamOut) :
    (sos_mkrs c o).pcm_config_set = o.pcm_config_set := by
  unfold sos_mkrs; split <;> rfl

theorem sos_mkrs_standby (c : HwConsts) (o : StreamOut) : (sos_mkrs c o).standby = o.standby := by
  unfold sos_mkrs; split <;> rfl

theorem sos_mkrs_written (c : HwConsts) (o : StreamOut) : (sos_mkrs c o).written = o.written := by
  unfold sos_mkrs; split <;> rfl

theorem sos_mkrs_cur (c : HwConsts) (o : StreamOut) :
    (sos_mkrs c o).cur_write_threshold = o.cur_write_threshold := by
  unfold sos_mkrs; split <;> rfl

theorem sos_mkrs_wt (c : HwConsts) (o : StreamOut) :
    (sos_mkrs c o).write_threshold = o.write_threshold := by
  unfold sos_mkrs; split <;> rfl

theorem sos_mkrs_buffer_type (c : HwConsts) (o : StreamOut) :
    (sos_mkrs c o).buffer_type = o.buffer_type := by
  unfold sos_mkrs; split <;> rfl

theorem sos_mkrs_of_cfgset (c : HwConsts) (o : StreamOut) (h : o.pcm_config_set = true) :
    sos_mkrs c o = o := by
  unfold sos_mkrs strDevCfg
  rw [h, if_pos rfl, if_neg (by simp)]

theorem sos1_standby (c : HwConsts) (ok : Bool) (s : AState) :
    (start_output_stream c ok s).1.out.standby = s.out.standby := by
  unfold start_output_stream
  split <;> (try split) <;>
    simp [sos_mkrs_standby, sos_open_standby, sos_sel_standby]

theorem sos1_written (c : HwConsts) (ok : Bool) (s : AState) :
    (start_output_stream c ok s).1.out.written = s.out.written := by
  unfold start_output_stream
  split <;> (try split) <;>
    simp [sos_mkrs_written, sos_open_written, sos_sel_written]

theorem sos1_cur (c : HwConsts) (ok : Bool) (s : AState) :
    (start_output_stream c ok s).1.out.cur_write_threshold = s.out.cur_write_threshold := by
  unfold start_output_stream
  split <;> (try split) <;>
    simp [sos_mkrs_cur, sos_open_cur, sos_sel_cur]

theorem sos1_wt (c : HwConsts) (ok : Bool) (s : AState) :
    (start_output_stream c ok s).1.out.write_threshold = s.out.write_threshold := by
  unfold start_output_stream
  split <;> (try split) <;>
    simp [sos_mkrs_wt, sos_open_wt, sos_sel_wt]

theorem sos1_out_device (c : HwConsts) (ok : Bool) (s : AState) :
    (start_output_stream c ok s).1.dev.out_device = s.dev.out_device := by
  unfold start_output_stream
  split <;> (try split) <;> rfl

theorem sos1_cfgset (c : HwConsts) (ok : Bool) (s : AState) (h : s.out.pcm_config_set = true) :
    (start_output_stream c ok s).1.out.pcm_config_set = true := by
  unfold start_output_stream
  split <;> (try split) <;>
    simp [sos_mkrs_cfgset, sos_open_cfgset, sos_sel_cfgset _ _ h]

theorem wpt_pcm (c : HwConsts) (b : Bool) (o : StreamOut) :
    (write_phase_thresh c b o).pcm = o.pcm := by
  unfold write_phase_thresh; split <;> rfl

theorem wpt_cfgset (c : HwConsts) (b : Bool) (o : StreamOut) :
    (write_phase_thresh c b o).pcm_config_set = o.pcm_config_set := by
  unfold write_phase_thresh; split <;> rfl

theorem wpt_standby (c : HwConsts) (b : Bool) (o : StreamOut) :
    (write_phase_thresh c b o).standby = o.standby := by
  unfold write_phase_thresh; split <;> rfl

theorem wpt_written (c : HwConsts) (b : Bool) (o : StreamOut) :
    (write_phase_thresh c b o).written = o.written := by
  unfold write_phase_thresh; split <;> rfl

theorem wpt_resampler (c : HwConsts) (b : Bool) (o : StreamOut) :
    (write_phase_thresh c b o).resampler = o.resampler := by
  unfold write_phase_thresh; split <;> rfl

theorem wpt_buffer (c : HwConsts) (b : Bool) (o : StreamOut) :
    (write_phase_thresh c b o).buffer = o.buffer := by
  unfold write_phase_thresh; split <;> rfl

theorem wc_post_standby (c : HwConsts) (env : WriteEnv) (s1 : AState) :
    (wc_post c env s1).standby = s1.out.standby := by
  unfold wc_post wc_o1; split <;> simp [wpt_standby]

theorem wc_post_written (c : HwConsts) (env : WriteEnv) (s1 : AState) :
    (wc_post c env s1).written = s1.out.written := by
  unfold wc_post wc_o1; split <;> simp [wpt_written]

theorem wc_post_resampler (c : HwConsts) (env : WriteEnv) (s1 : AState) :
    (wc_post c env s1).resampler = s1.out.resampler := by
  unfold wc_post wc_o1; split <;> simp [wpt_resampler]

theorem wc_post_buffer (c : HwConsts) (env : WriteEnv) (s1 : AState) :
    (wc_post c env s1).buffer = s1.out.buffer := by
  unfold wc_post wc_o1; split <;> simp [wpt_buffer]

theorem wc_post_pcm (c : HwConsts) (env : WriteEnv) (s1 : AState) :
    (wc_post c env s1).pcm = s1.out.pcm := by
  unfold wc_post wc_o1; split <;> simp [wpt_pcm]

theorem wc_post_wt (c : HwConsts) (env : WriteEnv) (s1 : AState) :
    (wc_post c env s1).write_threshold = (wc_o1 c s1).write_threshold := by
  unfold wc_post; split <;> rfl

theorem wcr_st_out (c : HwConsts) (env : WriteEnv) (s1 : AState) (buf : List Int) (bytes : Nat) :
    (write_core c env s1 buf bytes).st.out =
      (if env.pcmWriteRes = 0 then
        { wc_post c env s1 with
          written := (wc_post c env s1).written + (wc_rs c env s1 buf bytes).2 }
      else wc_post c env s1) := by
  unfold write_core
  split
  · rw [if_neg (by simp_all [EPIPE])]
  · rfl

theorem wcr_st_dev (c : HwConsts) (env : WriteEnv) (s1 : AState) (buf : List Int) (bytes : Nat) :
    (write_core c env s1 buf bytes).st.dev = s1.dev := by
  unfold write_core; split <;> rfl

theorem wcr_ret (c : HwConsts) (env : WriteEnv) (s1 : AState) (buf : List Int) (bytes : Nat) :
    (write_core c env s1 buf bytes).ret =
      (if env.pcmWriteRes = -EPIPE then env.pcmWriteRes else (bytes : Int)) := by
  unfold write_core; split <;> simp_all

theorem wcr_pace (c : HwConsts) (env : WriteEnv) (s1 : AState) (buf : List Int) (bytes : Nat) :
    (write_core c env s1 buf bytes).paceSleep =
      (if env.pcmWriteRes = -EPIPE then none
       else if env.pcmWriteRes = 0 then none else some (paceTime c bytes)) := by
  unfold write_core; split <;> simp_all

theorem wcr_hwWrites (c : HwConsts) (env : WriteEnv) (s1 : AState) (buf : List Int) (bytes : Nat) :
    (write_core c env s1 buf bytes).hwWrites = 1 := by
  unfold write_core; split <;> rfl

theorem wcr_hwBuf (c : HwConsts) (env : WriteEnv) (s1 : AState) (buf : List Int) (bytes : Nat) :
    (write_core c env s1 buf bytes).hwBuf = (wc_rs c env s1 buf bytes).1 := by
  unfold write_core; split <;> rfl

theorem wcr_hwBytes (c : HwConsts) (env : WriteEnv) (s1 : AState) (buf : List Int) (bytes : Nat) :
    (write_core c env s1 buf bytes).hwBytes =
      (wc_rs c env s1 buf bytes).2 * (wc_dm c s1 buf bytes).2 := by
  unfold write_core; split <;> rfl

theorem wcr_outFrames (c : HwConsts) (env : WriteEnv) (s1 : AState) (buf : List Int) (bytes : Nat) :
    (write_core c env s1 buf bytes).outFrames = (wc_rs c env s1 buf bytes).2 := by
  unfold write_core; split <;> rfl

theorem wcr_kf (c : HwConsts) (env : WriteEnv) (s1 : AState) (buf : List Int) (bytes : Nat) :
    (write_core c env s1 buf bytes).kernelFrames = (wc_kfT c env s1).1 := by
  unfold write_core; split <;> rfl

theorem ws_dev_out_device (c : HwConsts) (env : WriteEnv) (s : AState) :
    (write_start c env s).1.dev.out_device = s.dev.out_device := by
  unfold write_start
  split
  · split
    · exact sos1_out_device c env.openOk s
    · simp [sos1_out_device]
  · rfl

theorem ws_written (c : HwConsts) (env : WriteEnv) (s : AState) :
    (write_start c env s).1.out.written = s.out.written := by
  unfold write_start
  split
  · split
    · exact sos1_written c env.openOk s
    · simp [sos1_written]
  · rfl

theorem ws_cur (c : HwConsts) (env : WriteEnv) (s : AState) :
    (write_start c env s).1.out.cur_write_threshold = s.out.cur_write_threshold := by
  unfold write_start
  split
  · split
    · exact sos1_cur c env.openOk s
    · simp [sos1_cur]
  · rfl

theorem ws_cfgset (c : HwConsts) (env : WriteEnv) (s : AState) (h : s.out.pcm_config_set = true) :
    (write_start c env s).1.out.pcm_config_set = true := by
  unfold write_start
  split
  · split
    · exact sos1_cfgset c env.openOk s h
    · simp [sos1_cfgset c env.openOk s h]
  · exact h

theorem ws_standby_fail (c : HwConsts) (env : WriteEnv) (s : AState)
    (h : (write_start c env s).2 ≠ 0) :
    (write_start c env s).1.out.standby = s.out.standby := by
  unfold write_start at h ⊢
  split
  · split
    · exact sos1_standby c env.openOk s
    · simp_all
  · rfl

theorem ws_not_standby (c : HwConsts) (env : WriteEnv) (s : AState)
    (h : s.out.standby = false) : write_start c env s = (s, 0) := by
  unfold write_start
  rw [if_neg (by simp [h])]

theorem ow_run (c : HwConsts) (env : WriteEnv) (s : AState) (buf : List Int) (bytes : Nat)
    (h : (write_start c env s).2 = 0) :
    out_write c env s buf bytes = write_core c env (write_start c env s).1 buf bytes := by
  unfold out_write
  rw [if_neg (by simp [h])]

theorem ow_exit (c : HwConsts) (env : WriteEnv) (s : AState) (buf : List Int) (bytes : Nat)
    (h : (write_start c env s).2 ≠ 0) :
    out_write c env s buf bytes =
      { st := (write_start c env s).1, ret := (bytes : Int),
        paceSleep := some (paceTime c bytes), sleepTotal := 0, hwWrites := 0,
        hwBuf := [], hwBytes := 0, outFrames := 0, kernelFrames := 0 } := by
  unfold out_write
  rw [if_pos h]

theorem wcr_st_cur (c : HwConsts) (env : WriteEnv) (s1 : AState) (buf : List Int) (bytes : Nat) :
    (write_core c env s1 buf bytes).st.out.cur_write_threshold =
      (wc_post c env s1).cur_write_threshold := by
  rw [wcr_st_out]; split <;> rfl

theorem wcr_st_wt (c : HwConsts) (env : WriteEnv) (s1 : AState) (buf : List Int) (bytes : Nat) :
    (write_core c env s1 buf bytes).st.out.write_threshold =
      (wc_o1 c s1).write_threshold := by
  rw [wcr_st_out]
  split <;> simp [wc_post_wt]

theorem wcr_st_standby (c : HwConsts) (env : WriteEnv) (s1 : AState) (buf : List Int) (bytes : Nat) :
    (write_core c env s1 buf bytes).st.out.standby = s1.out.standby := by
  rw [wcr_st_out]
  split <;> simp [wc_post_standby]

theorem wc_post_cur_noSco (c : HwConsts) (env : WriteEnv) (s1 : AState)
    (h : scoOnOf s1 = false) :
    (wc_post c env s1).cur_write_threshold =
      threshold_ramp c (wc_cfg c s1) (wc_o1 c s1).write_threshold
        (wc_o1 c s1).cur_write_threshold (wc_kfT c env s1).1 := by
  unfold wc_post
  rw [if_neg (by simp [h])]

/-! ### Claim theorems -/

/-- C7: standby is idempotent: for every stream state, calling standby
twice in a row yields the same stream and device state as calling it
once, the second call performs no resource release, and both calls
return success (0). -/
theorem C7_standby_idempotent (s : AState) :
    (out_standby (out_standby s).1).1 = (out_standby s).1
    ∧ (out_standby (out_standby s).1).2.1 = []
    ∧ (out_standby s).2.2 = 0
    ∧ (out_standby (out_standby s).1).2.2 = 0 := by
  unfold out_standby do_out_standby
  by_cases h : s.out.standby = false
  · simp [h]
  · simp [h]

/-- C6: the written counter is monotonically non-decreasing: a write
call advances it by exactly the output frame count passed to the
(successful) hardware write and leaves it unchanged on any failure, and
neither standby (out_standby / do_out_standby) nor a set-parameters call
ever resets or decreases it. -/
theorem C6_written_monotonic (c : HwConsts) (env : WriteEnv) (s : AState) (buf : List Int)
    (bytes : Nat) (rt : Option Nat) :
    ((out_write c env s buf bytes).st.out.written =
      if (out_write c env s buf bytes).hwWrites = 1 ∧ env.pcmWriteRes = 0 then
        s.out.written + (out_write c env s buf bytes).outFrames
      else s.out.written)
    ∧ s.out.written ≤ (out_write c env s buf bytes).st.out.written
    ∧ (out_standby s).1.out.written = s.out.written
    ∧ (do_out_standby s).1.out.written = s.out.written
    ∧ (out_set_parameters rt s).1.out.written = s.out.written := by
  have hso : (do_out_standby s).1.out.written = s.out.written := by
    unfold do_out_standby; split <;> rfl
  have hsp : (out_set_parameters rt s).1.out.written = s.out.written := by
    unfold out_set_parameters
    rcases rt with _ | val
    · rfl
    · dsimp only
      by_cases hcond : s.dev.out_device ≠ val ∧ val ≠ 0
      · rw [if_pos hcond]; simpa using hso
      · rw [if_neg hcond]
  have hw : (out_write c env s buf bytes).st.out.written =
      if (out_write c env s buf bytes).hwWrites = 1 ∧ env.pcmWriteRes = 0 then
        s.out.written + (out_write c env s buf bytes).outFrames
      else s.out.written := by
    by_cases hws : (write_start c env s).2 = 0
    · rw [ow_run c env s buf bytes hws, wcr_st_out, wcr_hwWrites, wcr_outFrames]
      by_cases hres : env.pcmWriteRes = 0
      · rw [if_pos hres, if_pos ⟨rfl, hres⟩]
        simp [wc_post_written, ws_written]
      · rw [if_neg hres, if_neg (by simp [hres]), wc_post_written, ws_written]
    · rw [ow_exit c env s buf bytes hws]
      simp [ws_written]
  refine ⟨hw, ?_, ?_, hso, hsp⟩
  · rw [hw]; split <;> omega
  · unfold out_standby; exact hso

/-- C3: when the hardware write reports underrun (-EPIPE), the write
call returns immediately: no fallback pacing sleep, no advance of the
written counter, and the underrun code is returned (there is a single
hardware write per call, so no retry). -/
theorem C3_underrun_short_circuit (c : HwConsts) (env : WriteEnv) (s : AState)
    (buf : List Int) (bytes : Nat)
    (h1 : env.pcmWriteRes = -EPIPE)
    (h2 : (out_write c env s buf bytes).hwWrites = 1) :
    (out_write c env s buf bytes).paceSleep = none
    ∧ (out_write c env s buf bytes).st.out.written = s.out.written
    ∧ (out_write c env s buf bytes).ret = -EPIPE := by
  by_cases hws : (write_start c env s).2 = 0
  · rw [ow_run c env s buf bytes hws]
    refine ⟨?_, ?_, ?_⟩
    · rw [wcr_pace, if_pos h1]
    · rw [wcr_st_out, if_neg (by rw [h1]; simp [EPIPE]), wc_post_written, ws_written]
    · rw [wcr_ret, if_pos h1, h1]
  · rw [ow_exit c env s buf bytes hws] at h2
    simp at h2

/-- Witness for C3 at a concrete active stream and an underrun result. -/
theorem C3_underrun_short_circuit_witness :
    (out_write ⟨256, 2, 4, 48000, 2⟩ ⟨true, fun _ => none, -32, [], 0⟩
        ⟨⟨2, 4, 3, false, true⟩,
         ⟨some ⟨true, false⟩, true, false, 100, false, false, 0, 512, 512, BufferType.short⟩⟩
        [] 8).paceSleep = none
    ∧ (out_write ⟨256, 2, 4, 48000, 2⟩ ⟨true, fun _ => none, -32, [], 0⟩
        ⟨⟨2, 4, 3, false, true⟩,
         ⟨some ⟨true, false⟩, true, false, 100, false, false, 0, 512, 512, BufferType.short⟩⟩
        [] 8).st.out.written = 100
    ∧ (out_write ⟨256, 2, 4, 48000, 2⟩ ⟨true, fun _ => none, -32, [], 0⟩
        ⟨⟨2, 4, 3, false, true⟩,
         ⟨some ⟨true, false⟩, true, false, 100, false, false, 0, 512, 512, BufferType.short⟩⟩
        [] 8).ret = -EPIPE :=
  C3_underrun_short_circuit ⟨256, 2, 4, 48000, 2⟩ ⟨true, fun _ => none, -32, [], 0⟩
    ⟨⟨2, 4, 3, false, true⟩,
     ⟨some ⟨true, false⟩, true, false, 100, false, false, 0, 512, 512, BufferType.short⟩⟩
    [] 8 (by decide) (by decide)

/-- C9 (code bug): after a failed Standby-to-Active transition inside
write (pcm_open yields a handle that is not ready), the stream is still
in standby but its pcm field is NOT null: it retains the handle that
start_output_stream just closed (the C code lacks `out->pcm = NULL;` on
that error path), violating the claimed invariant that standby implies
all hardware resources are absent. -/
theorem C9_standby_invariant_bug :
    (out_write ⟨256, 2, 4, 48000, 2⟩ ⟨false, fun _ => none, 0, [], 0⟩
        ⟨⟨2, 4, 3, false, false⟩,
         ⟨none, true, true, 0, false, false, 0, 0, 0, BufferType.unknown⟩⟩
        [] 0).st.out.standby = true
    ∧ (out_write ⟨256, 2, 4, 48000, 2⟩ ⟨false, fun _ => none, 0, [], 0⟩
        ⟨⟨2, 4, 3, false, false⟩,
         ⟨none, true, true, 0, false, false, 0, 0, 0, BufferType.unknown⟩⟩
        [] 0).st.out.pcm = some ⟨false, true⟩ := by
  constructor <;> decide

theorem i64OfU64_lt (u : Nat) (h : u % U64 < I63) : i64OfU64 u = ((u % U64 : Nat) : Int) := by
  unfold i64OfU64
  rw [if_pos h]

theorem i64OfU64_ge (u : Nat) (h : ¬ u % U64 < I63) :
    i64OfU64 u = ((u % U64 : Nat) : Int) - (U64 : Int) := by
  unfold i64OfU64
  rw [if_neg h]

theorem sos_open_ne_none (ok : Bool) (o : StreamOut) : (sos_open ok o).pcm ≠ none := by
  unfold sos_open
  split
  · simp
  · simp_all

theorem pcmReadyb_sos_sel (d : Nat) (o : StreamOut) : pcmReadyb (sos_sel d o) = pcmReadyb o := by
  unfold pcmReadyb
  rw [sos_sel_pcm]

theorem sos_open_ready_false (o : StreamOut) (hready : pcmReadyb o = false) (hd : PcmHandle)
    (h : (sos_open false o).pcm = some hd) : hd.ready = false := by
  unfold sos_open at h
  split at h
  · unfold pcm_open at h
    have : hd = ⟨o.pcm_config_set && false, false⟩ := by simp_all
    rw [this]
    simp
  · unfold pcmReadyb at hready
    rw [h] at hready
    exact hready

theorem sos_fail (c : HwConsts) (s : AState) (hready : pcmReadyb s.out = false) :
    (start_output_stream c false s).2 = -ENOMEM := by
  unfold start_output_stream
  rcases hp : (sos_open false (sos_sel s.dev.out_device s.out)).pcm with _ | hd
  · exact absurd hp (sos_open_ne_none _ _)
  · have hr : hd.ready = false :=
      sos_open_ready_false _ (by rw [pcmReadyb_sos_sel]; exact hready) hd hp
    dsimp only
    rw [if_pos hr]

theorem ws_fail (c : HwConsts) (env : WriteEnv) (s : AState)
    (h1 : s.out.standby = true) (h2 : (start_output_stream c env.openOk s).2 ≠ 0) :
    write_start c env s = start_output_stream c env.openOk s := by
  unfold write_start
  rw [if_pos (by simp [h1]), if_pos h2]

theorem sos_success (c : HwConsts) (s : AState) (hcfg : s.out.pcm_config_set = true)
    (hpcm : s.out.pcm = none) : (start_output_stream c true s).2 = 0 := by
  unfold start_output_stream
  have hpc : (sos_open true (sos_sel s.dev.out_device s.out)).pcm = some ⟨true, false⟩ := by
    unfold sos_open
    rw [sos_sel_pcm, hpcm, if_pos rfl]
    unfold pcm_open
    rw [sos_sel_cfgset _ _ hcfg]
    simp
  rw [hpc]
  dsimp only
  rw [if_neg (by simp)]

theorem ws_success_standby (c : HwConsts) (env : WriteEnv) (s : AState)
    (h : (write_start c env s).2 = 0) (hstand : s.out.standby = true) :
    (write_start c env s).1.out.standby = false := by
  unfold write_start at h ⊢
  rw [if_pos (by simp [hstand])] at h ⊢
  by_cases hc : (start_output_stream c env.openOk s).2 ≠ 0
  · rw [if_pos hc] at h
    exact absurd h hc
  · rw [if_neg hc]

theorem sos_open_cfgset_true (ok : Bool) (o : StreamOut) (h : o.pcm_config_set = true) :
    (sos_open ok o).pcm_config_set = true := by
  rw [sos_open_cfgset]; exact h

theorem sos1_resampler (c : HwConsts) (ok : Bool) (s : AState)
    (h : s.out.pcm_config_set = true) :
    (start_output_stream c ok s).1.out.resampler = s.out.resampler := by
  have hc : (sos_open ok (sos_sel s.dev.out_device s.out)).pcm_config_set = true :=
    sos_open_cfgset_true _ _ (sos_sel_cfgset _ _ h)
  unfold start_output_stream
  split <;> (try split) <;>
    simp [sos_mkrs_of_cfgset _ _ hc, sos_open_resampler, sos_sel_resampler]

theorem sos1_buffer (c : HwConsts) (ok : Bool) (s : AState)
    (h : s.out.pcm_config_set = true) :
    (start_output_stream c ok s).1.out.buffer = s.out.buffer := by
  have hc : (sos_open ok (sos_sel s.dev.out_device s.out)).pcm_config_set = true :=
    sos_open_cfgset_true _ _ (sos_sel_cfgset _ _ h)
  unfold start_output_stream
  split <;> (try split) <;>
    simp [sos_mkrs_of_cfgset _ _ hc, sos_open_buffer, sos_sel_buffer]

theorem ws_resampler (c : HwConsts) (env : WriteEnv) (s : AState)
    (h : s.out.pcm_config_set = true) :
    (write_start c env s).1.out.resampler = s.out.resampler := by
  unfold write_start
  split
  · split
    · exact sos1_resampler c env.openOk s h
    · simp [sos1_resampler c env.openOk s h]
  · rfl

theorem ws_buffer (c : HwConsts) (env : WriteEnv) (s : AState)
    (h : s.out.pcm_config_set = true) :
    (write_start c env s).1.out.buffer = s.out.buffer := by
  unfold write_start
  split
  · split
    · exact sos1_buffer c env.openOk s h
    · simp [sos1_buffer c env.openOk s h]
  · rfl

theorem wc_cfg_of (c : HwConsts) (s1 : AState) (h : s1.out.pcm_config_set = true) :
    wc_cfg c s1 = pcm_config_out c := by
  unfold wc_cfg strDevCfg wc_o1
  rw [wpt_cfgset, h, if_pos rfl]

theorem ramp_cases (c : HwConsts) (dcfg : PcmConfig) (wt cur kf : Int) :
    ((threshold_ramp c dcfg wt cur kf - cur).natAbs ≤ dcfg.period_size / 4
      ∨ (threshold_ramp c dcfg wt cur kf =
           (((kf.toNat / dcfg.period_size + 1) * dcfg.period_size
             + dcfg.period_size / 4 : Nat) : Int)
         ∧ kf < wt
         ∧ ((dcfg.period_size * c.shortPeriodCount : Nat) : Int) < wt - kf))
    ∧ (cur < wt → threshold_ramp c dcfg wt cur kf ≤ wt)
    ∧ (wt < cur → wt ≤ threshold_ramp c dcfg wt cur kf) := by
  unfold threshold_ramp
  by_cases h1 : wt < cur
  · rw [if_pos h1]
    by_cases h2 : cur - ((dcfg.period_size / 4 : Nat) : Int) < wt
    · rw [if_pos h2]
      exact ⟨Or.inl (by omega), by omega, by omega⟩
    · rw [if_neg h2]
      exact ⟨Or.inl (by omega), by omega, by omega⟩
  · rw [if_neg h1]
    by_cases h2 : cur < wt
    · rw [if_pos h2]
      by_cases h3 : wt < cur + ((dcfg.period_size / 4 : Nat) : Int)
      · rw [if_pos h3]
        exact ⟨Or.inl (by omega), by omega, by omega⟩
      · rw [if_neg h3]
        exact ⟨Or.inl (by omega), by omega, by omega⟩
    · rw [if_neg h2]
      by_cases h3 : kf < wt ∧ ((dcfg.period_size * c.shortPeriodCount : Nat) : Int) < wt - kf
      · rw [if_pos h3]
        exact ⟨Or.inr ⟨rfl, h3.1, h3.2⟩, by omega, by omega⟩
      · rw [if_neg h3]
        exact ⟨Or.inl (by omega), by omega, by omega⟩

theorem wc_o1_cur_of_ne_unknown (c : HwConsts) (s1 : AState)
    (h : s1.out.buffer_type ≠ BufferType.unknown) :
    (wc_o1 c s1).cur_write_threshold = s1.out.cur_write_threshold := by
  unfold wc_o1 write_phase_thresh
  split
  · simp [h]
  · rfl

/-- C2: when the telemetry read succeeds, getPresentationPosition returns
exactly written - period_size * period_count + queried frames together
with the telemetry timestamp; it fails (-1, frame output unchanged)
whenever the telemetry read fails or the computed value would be
negative; the value is never clamped to zero.  The overflow hypotheses
bound the inputs away from uint64/int64 wraparound. -/
theorem C2_presentation_position (c : HwConsts) (o : StreamOut) (avail ts frames0 ts0 : Nat)
    (hcfg : o.pcm_config_set = true)
    (hW : o.written + avail < I63)
    (hA : avail < U32)
    (hK : c.periodSize * c.longPeriodCount < I63) :
    (out_get_presentation_position c (some (avail, ts)) o frames0 ts0 =
      if c.periodSize * c.longPeriodCount ≤ o.written + avail then
        (o.written + avail - c.periodSize * c.longPeriodCount, ts, 0)
      else (frames0, ts, -1))
    ∧ out_get_presentation_position c none o frames0 ts0 = (frames0, ts0, -1) := by
  refine ⟨?_, rfl⟩
  unfold out_get_presentation_position strDevCfg pcm_config_out
  rw [hcfg, if_pos rfl]
  dsimp only
  have hmodA : avail % U32 = avail := Nat.mod_eq_of_lt hA
  rw [hmodA]
  by_cases hle : c.periodSize * c.longPeriodCount ≤ o.written + avail
  · have hu : (o.written % U64 + (U64 - c.periodSize * c.longPeriodCount % U64) + avail) % U64
        = o.written + avail - c.periodSize * c.longPeriodCount := by
      unfold U64 I63 at *
      omega
    rw [i64OfU64_lt _ (by rw [hu]; unfold U64 I63 at *; omega), hu,
      if_pos (by positivity), if_pos hle]
    simp
  · have hu : (o.written % U64 + (U64 - c.periodSize * c.longPeriodCount % U64) + avail) % U64
        = U64 - (c.periodSize * c.longPeriodCount - o.written - avail) := by
      unfold U64 I63 at *
      omega
    rw [i64OfU64_ge _ (by rw [hu]; unfold U64 I63 at *; omega), hu,
      if_neg (by unfold U64 I63 at *; omega), if_neg hle]

/-- Witness for C2 at the spec's example: written 1000, ring capacity
120 * 4 = 480, queried 100, giving 620. -/
theorem C2_presentation_position_witness :
    out_get_presentation_position ⟨120, 2, 4, 48000, 2⟩ (some (100, 7))
      ⟨some ⟨true, false⟩, true, false, 1000, false, false, 0, 0, 0, BufferType.short⟩ 0 0
      = (620, 7, 0) := by
  rw [(C2_presentation_position ⟨120, 2, 4, 48000, 2⟩
      ⟨some ⟨true, false⟩, true, false, 1000, false, false, 0, 0, 0, BufferType.short⟩
      100 7 0 0 rfl (by decide) (by decide) (by decide)).1]
  decide

/-- C4: a write call that fails for a non-underrun reason - either the
Standby-to-Active transition fails (hardware open yields a not-ready
handle) or the hardware write fails with a code other than -EPIPE -
returns the full requested byte count after performing the fallback
pacing sleep of duration paceTime (the wall-clock duration of the bytes
at the stream rate), and on open failure (no hardware write happened)
the stream remains in Standby so the next write retries the
transition. -/
theorem C4_nonunderrun_failure (c : HwConsts) (env : WriteEnv) (s : AState)
    (buf : List Int) (bytes : Nat)
    (h : (s.out.standby = true ∧ env.openOk = false ∧ pcmReadyb s.out = false)
      ∨ (env.pcmWriteRes ≠ 0 ∧ env.pcmWriteRes ≠ -EPIPE
          ∧ (out_write c env s buf bytes).hwWrites = 1)) :
    (out_write c env s buf bytes).ret = (bytes : Int)
    ∧ (out_write c env s buf bytes).paceSleep = some (paceTime c bytes)
    ∧ ((out_write c env s buf bytes).hwWrites = 0 →
        (out_write c env s buf bytes).st.out.standby = true) := by
  rcases h with ⟨h1, h2, h3⟩ | ⟨h1, h2, h3⟩
  · have hsf : (start_output_stream c env.openOk s).2 = -ENOMEM := by
      rw [h2]; exact sos_fail c s h3
    have hws : (write_start c env s).2 ≠ 0 := by
      rw [ws_fail c env s h1 (by rw [hsf]; unfold ENOMEM; omega), hsf]
      unfold ENOMEM; omega
    rw [ow_exit c env s buf bytes hws]
    refine ⟨rfl, rfl, fun _ => ?_⟩
    rw [ws_fail c env s h1 (by rw [hsf]; unfold ENOMEM; omega), sos1_standby]
    exact h1
  · by_cases hws : (write_start c env s).2 = 0
    · rw [ow_run c env s buf bytes hws]
      refine ⟨?_, ?_, ?_⟩
      · rw [wcr_ret, if_neg h2]
      · rw [wcr_pace, if_neg h2, if_neg h1]
      · rw [wcr_hwWrites]; intro h0; omega
    · rw [ow_exit c env s buf bytes hws] at h3
      simp at h3

/-- Witness for C4: a write from standby whose hardware open fails
reports all 16 bytes consumed, sleeps the pacing duration, and leaves
the stream in standby. -/
theorem C4_nonunderrun_failure_witness :
    (out_write ⟨256, 2, 4, 48000, 2⟩ ⟨false, fun _ => none, 0, [], 0⟩
        ⟨⟨2, 4, 3, false, false⟩,
         ⟨none, true, true, 100, false, false, 0, 512, 512, BufferType.unknown⟩⟩
        [] 16).ret = 16
    ∧ (out_write ⟨256, 2, 4, 48000, 2⟩ ⟨false, fun _ => none, 0, [], 0⟩
        ⟨⟨2, 4, 3, false, false⟩,
         ⟨none, true, true, 100, false, false, 0, 512, 512, BufferType.unknown⟩⟩
        [] 16).paceSleep = some (paceTime ⟨256, 2, 4, 48000, 2⟩ 16)
    ∧ (out_write ⟨256, 2, 4, 48000, 2⟩ ⟨false, fun _ => none, 0, [], 0⟩
        ⟨⟨2, 4, 3, false, false⟩,
         ⟨none, true, true, 100, false, false, 0, 512, 512, BufferType.unknown⟩⟩
        [] 16).st.out.standby = true :=
  ⟨(C4_nonunderrun_failure ⟨256, 2, 4, 48000, 2⟩ ⟨false, fun _ => none, 0, [], 0⟩
      ⟨⟨2, 4, 3, false, false⟩,
       ⟨none, true, true, 100, false, false, 0, 512, 512, BufferType.unknown⟩⟩
      [] 16 (Or.inl (by decide))).1,
   (C4_nonunderrun_failure ⟨256, 2, 4, 48000, 2⟩ ⟨false, fun _ => none, 0, [], 0⟩
      ⟨⟨2, 4, 3, false, false⟩,
       ⟨none, true, true, 100, false, false, 0, 512, 512, BufferType.unknown⟩⟩
      [] 16 (Or.inl (by decide))).2.1,
   (C4_nonunderrun_failure ⟨256, 2, 4, 48000, 2⟩ ⟨false, fun _ => none, 0, [], 0⟩
      ⟨⟨2, 4, 3, false, false⟩,
       ⟨none, true, true, 100, false, false, 0, 512, 512, BufferType.unknown⟩⟩
      [] 16 (Or.inl (by decide))).2.2 (by decide)⟩

/-- C5: for an active stream with current route A and valid config, a
set-parameters routing request B with B different from A and B nonzero
leaves the stream in Standby immediately after the call and stores route
B; a request with B = A or B = 0 leaves the whole state unchanged; and
(when the hardware can be claimed) the stream is Active again with route
B after its next write. -/
theorem C5_route_change (c : HwConsts) (env : WriteEnv) (s : AState) (buf : List Int)
    (bytes : Nat) (B : Nat)
    (h1 : s.out.standby = false)
    (h2 : s.out.pcm_config_set = true)
    (h3 : s.dev.out_device ≠ B)
    (h4 : B ≠ 0)
    (h5 : env.openOk = true) :
    (out_set_parameters (some B) s).1.out.standby = true
    ∧ (out_set_parameters (some B) s).1.dev.out_device = B
    ∧ (out_write c env (out_set_parameters (some B) s).1 buf bytes).st.out.standby = false
    ∧ (out_write c env (out_set_parameters (some B) s).1 buf bytes).st.dev.out_device = B
    ∧ (out_set_parameters (some s.dev.out_device) s).1 = s
    ∧ (out_set_parameters (some 0) s).1 = s := by
  have hmid : (out_set_parameters (some B) s).1 =
      ({ dev := { s.dev with active_out := false, out_device := B },
         out := { s.out with
                  pcm := none, resampler := false, buffer := false, standby := true } } :
        AState) := by
    unfold out_set_parameters
    dsimp only
    rw [if_pos ⟨h3, h4⟩]
    unfold do_out_standby
    rw [if_pos h1]
  have hws : (write_start c env (out_set_parameters (some B) s).1).2 = 0 := by
    rw [hmid]
    unfold write_start
    rw [if_pos (by simp)]
    rw [h5]
    rw [if_neg (by
      simp only [ne_eq, Decidable.not_not]
      exact sos_success c _ (by simpa using h2) rfl)]
  refine ⟨by rw [hmid], by rw [hmid], ?_, ?_, ?_, ?_⟩
  · rw [ow_run _ _ _ _ _ hws, wcr_st_standby]
    exact ws_success_standby c env _ hws (by rw [hmid])
  · rw [ow_run _ _ _ _ _ hws, wcr_st_dev, ws_dev_out_device, hmid]
  · unfold out_set_parameters
    dsimp only
    rw [if_neg (by simp)]
  · unfold out_set_parameters
    dsimp only
    rw [if_neg (by simp)]

/-- Witness for C5: an active speaker-routed stream (route 2) rerouted
to 4 goes to standby with route 4, and is active with route 4 after the
next write. -/
theorem C5_route_change_witness :
    (out_set_parameters (some 4)
      ⟨⟨2, 4, 3, false, true⟩,
       ⟨some ⟨true, false⟩, true, false, 100, false, false, 0, 512, 512,
        BufferType.short⟩⟩).1.out.standby = true
    ∧ (out_set_parameters (some 4)
      ⟨⟨2, 4, 3, false, true⟩,
       ⟨some ⟨true, false⟩, true, false, 100, false, false, 0, 512, 512,
        BufferType.short⟩⟩).1.dev.out_device = 4
    ∧ (out_write ⟨256, 2, 4, 48000, 2⟩ ⟨true, fun _ => none, 0, [], 0⟩
        (out_set_parameters (some 4)
          ⟨⟨2, 4, 3, false, true⟩,
           ⟨some ⟨true, false⟩, true, false, 100, false, false, 0, 512, 512,
            BufferType.short⟩⟩).1 [] 16).st.out.standby = false
    ∧ (out_write ⟨256, 2, 4, 48000, 2⟩ ⟨true, fun _ => none, 0, [], 0⟩
        (out_set_parameters (some 4)
          ⟨⟨2, 4, 3, false, true⟩,
           ⟨some ⟨true, false⟩, true, false, 100, false, false, 0, 512, 512,
            BufferType.short⟩⟩).1 [] 16).st.dev.out_device = 4
    ∧ (out_set_parameters (some 2)
      ⟨⟨2, 4, 3, false, true⟩,
       ⟨some ⟨true, false⟩, true, false, 100, false, false, 0, 512, 512,
        BufferType.short⟩⟩).1 =
      ⟨⟨2, 4, 3, false, true⟩,
       ⟨some ⟨true, false⟩, true, false, 100, false, false, 0, 512, 512, BufferType.short⟩⟩
    ∧ (out_set_parameters (some 0)
      ⟨⟨2, 4, 3, false, true⟩,
       ⟨some ⟨true, false⟩, true, false, 100, false, false, 0, 512, 512,
        BufferType.short⟩⟩).1 =
      ⟨⟨2, 4, 3, false, true⟩,
       ⟨some ⟨true, false⟩, true, false, 100, false, false, 0, 512, 512, BufferType.short⟩⟩ :=
  C5_route_change ⟨256, 2, 4, 48000, 2⟩ ⟨true, fun _ => none, 0, [], 0⟩
    ⟨⟨2, 4, 3, false, true⟩,
     ⟨some ⟨true, false⟩, true, false, 100, false, false, 0, 512, 512, BufferType.short⟩⟩
    [] 16 4 (by decide) (by decide) (by decide) (by decide) (by decide)

/-- C10: the stream sample rate reported by out_get_sample_rate is the
hardware config rate itself, so the rate-adaptation condition is false:
neither a Standby-to-Active transition nor a write ever creates the
resampler or scratch buffer, and the write passes the (possibly
down-mixed, never resampled) input to the hardware with the input frame
count. -/
theorem C10_no_resampling (c : HwConsts) (env : WriteEnv) (s : AState) (b : Bool)
    (buf : List Int) (bytes : Nat)
    (h1 : s.out.pcm_config_set = true)
    (h2 : (out_write c env s buf bytes).hwWrites = 1) :
    out_get_sample_rate c = (pcm_config_out c).rate
    ∧ (start_output_stream c b s).1.out.resampler = s.out.resampler
    ∧ (start_output_stream c b s).1.out.buffer = s.out.buffer
    ∧ (out_write c env s buf bytes).st.out.resampler = s.out.resampler
    ∧ (out_write c env s buf bytes).st.out.buffer = s.out.buffer
    ∧ (out_write c env s buf bytes).outFrames = bytes / audio_stream_out_frame_sz
    ∧ (out_write c env s buf bytes).hwBuf =
        (if (pcm_config_out c).channels < 2 then
          downmixRun buf (bytes / audio_stream_out_frame_sz) else buf) := by
  by_cases hws : (write_start c env s).2 = 0
  · have hcfg1 : (write_start c env s).1.out.pcm_config_set = true := ws_cfgset c env s h1
    have hcf : wc_cfg c (write_start c env s).1 = pcm_config_out c := wc_cfg_of c _ hcfg1
    have hrs : wc_rs c env (write_start c env s).1 buf bytes =
        ((wc_dm c (write_start c env s).1 buf bytes).1, bytes / audio_stream_out_frame_sz) := by
      unfold wc_rs
      rw [hcf, if_neg (by unfold out_get_sample_rate; simp)]
    have hdm : wc_dm c (write_start c env s).1 buf bytes =
        (if (pcm_config_out c).channels < 2 then
          (downmixRun buf (bytes / audio_stream_out_frame_sz), audio_stream_out_frame_sz / 2)
        else (buf, audio_stream_out_frame_sz)) := by
      unfold wc_dm
      rw [hcf]
    refine ⟨rfl, sos1_resampler c b s h1, sos1_buffer c b s h1, ?_, ?_, ?_, ?_⟩
    · rw [ow_run c env s buf bytes hws, wcr_st_out]
      split <;> simp [wc_post_resampler, ws_resampler c env s h1]
    · rw [ow_run c env s buf bytes hws, wcr_st_out]
      split <;> simp [wc_post_buffer, ws_buffer c env s h1]
    · rw [ow_run c env s buf bytes hws, wcr_outFrames, hrs]
    · rw [ow_run c env s buf bytes hws, wcr_hwBuf, hrs, hdm]
      split <;> rfl
  · rw [ow_exit c env s buf bytes hws] at h2
    simp at h2

/-- Witness for C10 at a concrete active stereo stream. -/
theorem C10_no_resampling_witness :
    out_get_sample_rate ⟨256, 2, 4, 48000, 2⟩ = (pcm_config_out ⟨256, 2, 4, 48000, 2⟩).rate
    ∧ (start_output_stream ⟨256, 2, 4, 48000, 2⟩ true
        ⟨⟨2, 4, 3, false, true⟩,
         ⟨some ⟨true, false⟩, true, false, 100, false, false, 0, 512, 512,
          BufferType.short⟩⟩).1.out.resampler = false
    ∧ (start_output_stream ⟨256, 2, 4, 48000, 2⟩ true
        ⟨⟨2, 4, 3, false, true⟩,
         ⟨some ⟨true, false⟩, true, false, 100, false, false, 0, 512, 512,
          BufferType.short⟩⟩).1.out.buffer = false
    ∧ (out_write ⟨256, 2, 4, 48000, 2⟩ ⟨true, fun _ => none, 0, [], 0⟩
        ⟨⟨2, 4, 3, false, true⟩,
         ⟨some ⟨true, false⟩, true, false, 100, false, false, 0, 512, 512,
          BufferType.short⟩⟩ [1, 2] 16).st.out.resampler = false
    ∧ (out_write ⟨256, 2, 4, 48000, 2⟩ ⟨true, fun _ => none, 0, [], 0⟩
        ⟨⟨2, 4, 3, false, true⟩,
         ⟨some ⟨true, false⟩, true, false, 100, false, false, 0, 512, 512,
          BufferType.short⟩⟩ [1, 2] 16).st.out.buffer = false
    ∧ (out_write ⟨256, 2, 4, 48000, 2⟩ ⟨true, fun _ => none, 0, [], 0⟩
        ⟨⟨2, 4, 3, false, true⟩,
         ⟨some ⟨true, false⟩, true, false, 100, false, false, 0, 512, 512,
          BufferType.short⟩⟩ [1, 2] 16).outFrames = 16 / audio_stream_out_frame_sz
    ∧ (out_write ⟨256, 2, 4, 48000, 2⟩ ⟨true, fun _ => none, 0, [], 0⟩
        ⟨⟨2, 4, 3, false, true⟩,
         ⟨some ⟨true, false⟩, true, false, 100, false, false, 0, 512, 512,
          BufferType.short⟩⟩ [1, 2] 16).hwBuf =
        (if (pcm_config_out ⟨256, 2, 4, 48000, 2⟩).channels < 2 then
          downmixRun [1, 2] (16 / audio_stream_out_frame_sz) else [1, 2]) :=
  C10_no_resampling ⟨256, 2, 4, 48000, 2⟩ ⟨true, fun _ => none, 0, [], 0⟩
    ⟨⟨2, 4, 3, false, true⟩,
     ⟨some ⟨true, false⟩, true, false, 100, false, false, 0, 512, 512, BufferType.short⟩⟩
    true [1, 2] 16 (by decide) (by decide)

/-- C8: when the stream's declared channel count (2) exceeds the
hardware channel count, the down-mix keeps only the left sample of each
frame: an interleaved input of n frames [L0,R0,...,L(n-1),R(n-1)] is
passed to the hardware write with [L0,...,L(n-1)] in its first n slots
(pure decimation, not an average), and the per-frame size used for the
hardware write is halved (n frames become n * 4 bytes). -/
theorem C8_downmix (c : HwConsts) (env : WriteEnv) (s : AState) (L R : List Int)
    (h1 : s.out.pcm_config_set = true)
    (h2 : c.numChannels < 2)
    (h3 : s.out.standby = false)
    (h4 : R.length = L.length) :
    (out_write c env s (interleave L R) (8 * L.length)).hwBuf.take L.length = L
    ∧ (out_write c env s (interleave L R) (8 * L.length)).outFrames = L.length
    ∧ (out_write c env s (interleave L R) (8 * L.length)).hwBytes = L.length * 4 := by
  have hn : 8 * L.length / audio_stream_out_frame_sz = L.length := by
    unfold audio_stream_out_frame_sz
    omega
  have hws0 : write_start c env s = (s, 0) := ws_not_standby c env s h3
  have hws : (write_start c env s).2 = 0 := by rw [hws0]
  have hs1 : (write_start c env s).1 = s := by rw [hws0]
  have hcf : wc_cfg c (write_start c env s).1 = pcm_config_out c := by
    rw [hs1]; exact wc_cfg_of c s h1
  have hdm : wc_dm c (write_start c env s).1 (interleave L R) (8 * L.length) =
      (downmixRun (interleave L R) L.length, 4) := by
    unfold wc_dm
    rw [hcf, if_pos (by simpa [pcm_config_out] using h2), hn]
    rfl
  have hrs : wc_rs c env (write_start c env s).1 (interleave L R) (8 * L.length) =
      (downmixRun (interleave L R) L.length, L.length) := by
    unfold wc_rs
    rw [hcf, if_neg (by unfold out_get_sample_rate; simp), hdm, hn]
  refine ⟨?_, ?_, ?_⟩
  · rw [ow_run _ _ _ _ _ hws, wcr_hwBuf, hrs]
    exact downmixRun_take L R h4
  · rw [ow_run _ _ _ _ _ hws, wcr_outFrames, hrs]
  · rw [ow_run _ _ _ _ _ hws, wcr_hwBytes, hrs, hdm]

/-- Witness for C8: three stereo frames (10,11) (20,21) (30,31) on a
mono hardware config pass [10, 20, 30] to the hardware in 12 bytes. -/
theorem C8_downmix_witness :
    (out_write ⟨256, 2, 4, 48000, 1⟩ ⟨true, fun _ => none, 0, [], 0⟩
        ⟨⟨2, 4, 3, false, true⟩,
         ⟨some ⟨true, false⟩, true, false, 100, false, false, 0, 512, 512, BufferType.short⟩⟩
        (interleave [10, 20, 30] [11, 21, 31])
        (8 * ([10, 20, 30] : List Int).length)).hwBuf.take
          ([10, 20, 30] : List Int).length = [10, 20, 30]
    ∧ (out_write ⟨256, 2, 4, 48000, 1⟩ ⟨true, fun _ => none, 0, [], 0⟩
        ⟨⟨2, 4, 3, false, true⟩,
         ⟨some ⟨true, false⟩, true, false, 100, false, false, 0, 512, 512, BufferType.short⟩⟩
        (interleave [10, 20, 30] [11, 21, 31])
        (8 * ([10, 20, 30] : List Int).length)).outFrames = ([10, 20, 30] : List Int).length
    ∧ (out_write ⟨256, 2, 4, 48000, 1⟩ ⟨true, fun _ => none, 0, [], 0⟩
        ⟨⟨2, 4, 3, false, true⟩,
         ⟨some ⟨true, false⟩, true, false, 100, false, false, 0, 512, 512, BufferType.short⟩⟩
        (interleave [10, 20, 30] [11, 21, 31])
        (8 * ([10, 20, 30] : List Int).length)).hwBytes =
          ([10, 20, 30] : List Int).length * 4 :=
  C8_downmix ⟨256, 2, 4, 48000, 1⟩ ⟨true, fun _ => none, 0, [], 0⟩
    ⟨⟨2, 4, 3, false, true⟩,
     ⟨some ⟨true, false⟩, true, false, 100, false, false, 0, 512, 512, BufferType.short⟩⟩
    [10, 20, 30] [11, 21, 31] (by decide) (by decide) (by decide) (by decide)

/-- C1: for a write call on a stream not routed to SCO, the change a
single call makes to cur_write_threshold is at most period_size / 4 in
absolute value, except for the cold-start snap (the buffer type stored
when the threshold-update phase runs - i.e. just after leaving standby -
is Unknown) and the fast-recovery snap (the post-loop kernel fill level
is more than period_size * OUT_SHORT_PERIOD_COUNT below
write_threshold, and cur_write_threshold is set to
(kernel_frames / period_size + 1) * period_size + period_size / 4);
moreover the gradual ramp never overshoots write_threshold: starting
below the target it ends at most at the target, starting above it ends
at least at the target. -/
theorem C1_threshold_ramp_bound (c : HwConsts) (env : WriteEnv) (s : AState)
    (buf : List Int) (bytes : Nat)
    (hsco : s.dev.out_device &&& AUDIO_DEVICE_OUT_ALL_SCO = 0)
    (hcfg : s.out.pcm_config_set = true) :
    (((out_write c env s buf bytes).st.out.cur_write_threshold
        - s.out.cur_write_threshold).natAbs ≤ c.periodSize / 4
      ∨ (write_start c env s).1.out.buffer_type = BufferType.unknown
      ∨ ((out_write c env s buf bytes).st.out.cur_write_threshold =
            ((((out_write c env s buf bytes).kernelFrames.toNat / c.periodSize + 1)
              * c.periodSize + c.periodSize / 4 : Nat) : Int)
          ∧ (out_write c env s buf bytes).kernelFrames
              < (out_write c env s buf bytes).st.out.write_threshold
          ∧ ((c.periodSize * c.shortPeriodCount : Nat) : Int)
              < (out_write c env s buf bytes).st.out.write_threshold
                - (out_write c env s buf bytes).kernelFrames))
    ∧ ((write_start c env s).2 = 0 →
        ((wc_o1 c (write_start c env s).1).cur_write_threshold
            < (wc_o1 c (write_start c env s).1).write_threshold →
          (out_write c env s buf bytes).st.out.cur_write_threshold
            ≤ (wc_o1 c (write_start c env s).1).write_threshold)
        ∧ ((wc_o1 c (write_start c env s).1).write_threshold
            < (wc_o1 c (write_start c env s).1).cur_write_threshold →
          (wc_o1 c (write_start c env s).1).write_threshold
            ≤ (out_write c env s buf bytes).st.out.cur_write_threshold)) := by
  by_cases hws : (write_start c env s).2 = 0
  · have hdev : scoOnOf (write_start c env s).1 = false := by
      unfold scoOnOf
      rw [ws_dev_out_device, hsco]
      rfl
    have hcfg1 : (write_start c env s).1.out.pcm_config_set = true := ws_cfgset c env s hcfg
    have hcf : wc_cfg c (write_start c env s).1 = pcm_config_out c := wc_cfg_of c _ hcfg1
    have hcur : (out_write c env s buf bytes).st.out.cur_write_threshold =
        threshold_ramp c (wc_cfg c (write_start c env s).1)
          (wc_o1 c (write_start c env s).1).write_threshold
          (wc_o1 c (write_start c env s).1).cur_write_threshold
          (wc_kfT c env (write_start c env s).1).1 := by
      rw [ow_run _ _ _ _ _ hws, wcr_st_cur, wc_post_cur_noSco _ _ _ hdev]
    have hkf : (out_write c env s buf bytes).kernelFrames =
        (wc_kfT c env (write_start c env s).1).1 := by
      rw [ow_run _ _ _ _ _ hws, wcr_kf]
    have hwt : (out_write c env s buf bytes).st.out.write_threshold =
        (wc_o1 c (write_start c env s).1).write_threshold := by
      rw [ow_run _ _ _ _ _ hws, wcr_st_wt]
    obtain ⟨hd, hov1, hov2⟩ := ramp_cases c (wc_cfg c (write_start c env s).1)
      (wc_o1 c (write_start c env s).1).write_threshold
      (wc_o1 c (write_start c env s).1).cur_write_threshold
      (wc_kfT c env (write_start c env s).1).1
    constructor
    · by_cases htype : (write_start c env s).1.out.buffer_type = BufferType.unknown
      · exact Or.inr (Or.inl htype)
      · have hcur0 : (wc_o1 c (write_start c env s).1).cur_write_threshold
            = s.out.cur_write_threshold := by
          rw [wc_o1_cur_of_ne_unknown c _ htype, ws_cur]
        rcases hd with h | h
        · left
          rw [hcur, ← hcur0]
          simpa [hcf, pcm_config_out] using h
        · right; right
          refine ⟨?_, ?_, ?_⟩
          · rw [hcur, hkf]
            simpa [hcf, pcm_config_out] using h.1
          · rw [hkf, hwt]
            exact h.2.1
          · rw [hkf, hwt]
            simpa [hcf, pcm_config_out] using h.2.2
    · intro _
      refine ⟨fun hlt => ?_, fun hlt => ?_⟩
      · rw [hcur]
        exact hov1 hlt
      · rw [hcur]
        exact hov2 hlt
  · rw [ow_exit _ _ _ _ _ hws]
    refine ⟨Or.inl ?_, fun h0 => absurd h0 hws⟩
    dsimp only
    rw [ws_cur]
    simp

/-- Witness for C1 at a concrete non-SCO active stream. -/
theorem C1_threshold_ramp_bound_witness :
    ((out_write ⟨256, 2, 4, 48000, 2⟩ ⟨true, fun _ => none, 0, [], 0⟩
        ⟨⟨2, 4, 3, false, true⟩,
         ⟨some ⟨true, false⟩, true, false, 100, false, false, 0, 512, 512, BufferType.short⟩⟩
        [] 16).st.out.cur_write_threshold
        - (⟨⟨2, 4, 3, false, true⟩,
           ⟨some ⟨true, false⟩, true, false, 100, false, false, 0, 512, 512,
            BufferType.short⟩⟩ : AState).out.cur_write_threshold).natAbs ≤ 256 / 4
    ∨ (write_start ⟨256, 2, 4, 48000, 2⟩ ⟨true, fun _ => none, 0, [], 0⟩
        ⟨⟨2, 4, 3, false, true⟩,
         ⟨some ⟨true, false⟩, true, false, 100, false, false, 0, 512, 512,
          BufferType.short⟩⟩).1.out.buffer_type = BufferType.unknown
    ∨ ((out_write ⟨256, 2, 4, 48000, 2⟩ ⟨true, fun _ => none, 0, [], 0⟩
        ⟨⟨2, 4, 3, false, true⟩,
         ⟨some ⟨true, false⟩, true, false, 100, false, false, 0, 512, 512, BufferType.short⟩⟩
        [] 16).st.out.cur_write_threshold =
          ((((out_write ⟨256, 2, 4, 48000, 2⟩ ⟨true, fun _ => none, 0, [], 0⟩
            ⟨⟨2, 4, 3, false, true⟩,
             ⟨some ⟨true, false⟩, true, false, 100, false, false, 0, 512, 512,
              BufferType.short⟩⟩
            [] 16).kernelFrames.toNat / 256 + 1) * 256 + 256 / 4 : Nat) : Int)
        ∧ (out_write ⟨256, 2, 4, 48000, 2⟩ ⟨true, fun _ => none, 0, [], 0⟩
            ⟨⟨2, 4, 3, false, true⟩,
             ⟨some ⟨true, false⟩, true, false, 100, false, false, 0, 512, 512,
              BufferType.short⟩⟩ [] 16).kernelFrames
            < (out_write ⟨256, 2, 4, 48000, 2⟩ ⟨true, fun _ => none, 0, [], 0⟩
               ⟨⟨2, 4, 3, false, true⟩,
                ⟨some ⟨true, false⟩, true, false, 100, false, false, 0, 512, 512,
                 BufferType.short⟩⟩ [] 16).st.out.write_threshold
        ∧ ((256 * 2 : Nat) : Int)
            < (out_write ⟨256, 2, 4, 48000, 2⟩ ⟨true, fun _ => none, 0, [], 0⟩
               ⟨⟨2, 4, 3, false, true⟩,
                ⟨some ⟨true, false⟩, true, false, 100, false, false, 0, 512, 512,
                 BufferType.short⟩⟩ [] 16).st.out.write_threshold
              - (out_write ⟨256, 2, 4, 48000, 2⟩ ⟨true, fun _ => none, 0, [], 0⟩
                 ⟨⟨2, 4, 3, false, true⟩,
                  ⟨some ⟨true, false⟩, true, false, 100, false, false, 0, 512, 512,
                   BufferType.short⟩⟩ [] 16).kernelFrames) :=
  (C1_threshold_ramp_bound ⟨256, 2, 4, 48000, 2⟩ ⟨true, fun _ => none, 0, [], 0⟩
    ⟨⟨2, 4, 3, false, true⟩,
     ⟨some ⟨true, false⟩, true, false, 100, false, false, 0, 512, 512, BufferType.short⟩⟩
    [] 16 (by decide) (by decide)).1
